import Mathlib

/-!
Shallow embedding of the model registry, in-memory model cache, and the
upload / delete / predict / metrics endpoints of the ML model serving API
(src/app/models/model_loader.py, src/app/api/models.py, src/app/api/predict.py).

The Python cache `self.models` is a dict; it is embedded as an association
list with first-binding-wins lookup and replace-in-place insertion, which is
the observable semantics of a Python dict whose keys are unique.  The
database session is embedded as explicit state: a list of `MLModel` rows, a
list of `Prediction` rows, and an autoincrement counter.  The file system is
an association list from relative path to file content (bytes as `String`).

External collaborators are parameters: `joblib.load` / `pickle.load` are
oracles of type `String → Except String A` (they either produce an artifact
of an abstract type `A` or raise with a message), and a cached artifact's
`.predict` method is an oracle `A → List (List Int) → Except String (List Int)`.
Wall-clock latency is an input parameter (the timer is external).
-/

namespace MLServe

/-- First-binding-wins lookup in an association list (Python dict read). -/
def lookupKey {β : Type} (k : String) : List (String × β) → Option β
  | [] => none
  | (k', v) :: rest => if k' = k then some v else lookupKey k rest

/-- Replace-in-place insertion (Python dict assignment `d[k] = v`): the first
binding for `k` is overwritten, otherwise the binding is appended. -/
def insertKey {β : Type} (k : String) (v : β) : List (String × β) → List (String × β)
  | [] => [(k, v)]
  | (k', v') :: rest => if k' = k then (k, v) :: rest else (k', v') :: insertKey k v rest

/-- Removal of every binding for `k` (Python `del d[k]` under unique keys,
`os.remove` for the file system map). -/
def eraseKey {β : Type} (k : String) : List (String × β) → List (String × β)
  | [] => []
  | (k', v') :: rest => if k' = k then eraseKey k rest else (k', v') :: eraseKey k rest

/-- Number of bindings an association list holds for key `k`. -/
def countKey {β : Type} (k : String) (l : List (String × β)) : Nat :=
  (l.filter (fun p => p.1 = k)).length

/-- Durable registry row, from `class MLModel` in src/app/db/models.py
(timestamps are not modelled; `is_active` defaults to true on creation). -/
structure MLModel where
  id : Nat
  name : String
  version : String
  framework : String
  file_path : String
  description : Option String
  is_active : Bool
  uploaded_by : Nat
deriving DecidableEq

/-- Durable prediction-log row, from `class Prediction` in src/app/db/models.py
(latency is an abstract tick count; `created_at` is not modelled). -/
structure Prediction where
  model_id : Nat
  user_id : Nat
  input_data : String
  output_data : String
  latency : Nat
deriving DecidableEq

/-- The exception kinds the loader can raise: `FileNotFoundError`,
`ValueError`, and a bare `Exception`, each carrying its message. -/
inductive LoaderErr
  | fileNotFoundError (msg : String)
  | valueError (msg : String)
  | exception (msg : String)
deriving DecidableEq

/-- The message carried by a loader exception (Python `str(e)`). -/
def LoaderErr.msg : LoaderErr → String
  | .fileNotFoundError m => m
  | .valueError m => m
  | .exception m => m

/-- An HTTP error response, from `HTTPException(status_code=..., detail=...)`. -/
structure HTTPException where
  status_code : Nat
  detail : String
deriving DecidableEq

namespace ModelLoader

variable {A : Type}

/-- Embeds `ModelLoader.load_model` (src/app/models/model_loader.py lines
16-44).  The file-existence check happens before the `try` block, so a
missing file propagates as a distinct `FileNotFoundError`; everything raised
inside the `try` — including the `ValueError` for an unsupported framework —
is caught by `except Exception` and re-raised as a bare `Exception` whose
message is prefixed with `Error loading model: `.  On success the artifact
is stored in the cache under `model_name` (dict assignment) and returned. -/
def load_model (joblib_load pickle_load : String → Except String A)
    (fs : List (String × String)) (models : List (String × A))
    (model_name file_path framework : String) :
    Except LoaderErr (A × List (String × A)) :=
  match lookupKey file_path fs with
  | none => .error (.fileNotFoundError ("Model file not found: " ++ file_path))
  | some bytes =>
    let attempt : Except String A :=
      if framework = "sklearn" then joblib_load bytes
      else if framework = "pickle" then pickle_load bytes
      else .error ("Unsupported framework: " ++ framework)
    match attempt with
    | .ok m => .ok (m, insertKey model_name m models)
    | .error e => .error (.exception ("Error loading model: " ++ e))

/-- Embeds `ModelLoader.get_model` (lines 46-50): a cache miss raises
`ValueError` (the source message wraps the name in single quote characters,
which are omitted here). -/
def get_model (models : List (String × A)) (model_name : String) :
    Except LoaderErr A :=
  match lookupKey model_name models with
  | none => .error (.valueError ("Model " ++ model_name ++ " not loaded. Please load it first."))
  | some m => .ok m

/-- Embeds `ModelLoader.unload_model` (lines 52-55): delete if present,
no-op otherwise. -/
def unload_model (models : List (String × A)) (model_name : String) :
    List (String × A) :=
  eraseKey model_name models

/-- Embeds `ModelLoader.predict` (lines 57-64).  `get_model` is called
outside the `try` block, so its `ValueError` propagates unchanged; only an
exception raised by the artifact's own `.predict` (the `infer` oracle) is
wrapped as `Exception` with prefix `Prediction error: `. -/
def predict (infer : A → List (List Int) → Except String (List Int))
    (models : List (String × A)) (model_name : String)
    (input_data : List (List Int)) : Except LoaderErr (List Int) :=
  match get_model models model_name with
  | .error e => .error e
  | .ok m =>
    match infer m input_data with
    | .ok p => .ok p
    | .error e => .error (.exception ("Prediction error: " ++ e))

/-- Embeds `ModelLoader.save_uploaded_model` (lines 66-73): writes the bytes
at the given relative filename and returns that filename. -/
def save_uploaded_model (fs : List (String × String)) (file_content filename : String) :
    String × List (String × String) :=
  (filename, insertKey filename file_content fs)

/-- Embeds `ModelLoader.delete_model_file` (lines 75-79): remove the file if
it exists, no-op otherwise. -/
def delete_model_file (fs : List (String × String)) (file_path : String) :
    List (String × String) :=
  eraseKey file_path fs

end ModelLoader

/-- The whole observable state: file storage, registry rows, prediction-log
rows, the in-memory cache, and the autoincrement id counter. -/
structure St (A : Type) where
  fs : List (String × String)
  db : List MLModel
  preds : List Prediction
  models : List (String × A)
  nextId : Nat
deriving DecidableEq

/-- The supported framework strings (src/app/api/models.py line 84). -/
def supported_frameworks : List String := ["sklearn", "pickle"]

variable {A : Type}

/-- Embeds `upload_model` (src/app/api/models.py lines 66-131).  Checks in
source order: duplicate name (any record, active or not), framework
membership, payload size (`len(content)/(1024*1024) > MAX` over the reals is
equivalent to the integer comparison used here); then saves the file, inserts
the row, and loads the artifact.  If loading fails the handler deletes the
just-inserted row and the saved file and reports 500 with the loader
message; the state reached at that point is carried in the error. -/
def upload_model (joblib_load pickle_load : String → Except String A)
    (st : St A) (orig_filename name version framework : String)
    (content : String) (description : Option String) (userId : Nat)
    (maxModelSizeMB : Nat) :
    Except (HTTPException × St A) (MLModel × St A) :=
  match st.db.find? (fun r => r.name == name) with
  | some _ => .error (⟨400, "Model with this name already exists"⟩, st)
  | none =>
    if framework ∈ supported_frameworks then
      if content.length > maxModelSizeMB * 1024 * 1024 then
        .error (⟨400, "File size exceeds maximum allowed size"⟩, st)
      else
        let filename := name ++ "_v" ++ version ++ "_" ++ orig_filename
        let saved := ModelLoader.save_uploaded_model st.fs content filename
        let new_model : MLModel :=
          ⟨st.nextId, name, version, framework, saved.1, description, true, userId⟩
        let db1 := st.db ++ [new_model]
        match ModelLoader.load_model joblib_load pickle_load saved.2 st.models
            name saved.1 framework with
        | .ok (_, models1) =>
          .ok (new_model,
            { fs := saved.2, db := db1, preds := st.preds, models := models1,
              nextId := st.nextId + 1 })
        | .error e =>
          .error (⟨500, "Error loading model: " ++ e.msg⟩,
            { fs := ModelLoader.delete_model_file saved.2 saved.1,
              db := db1.filter (fun r => r.id ≠ new_model.id),
              preds := st.preds, models := st.models, nextId := st.nextId + 1 })
    else
      .error (⟨400, "Unsupported framework. Supported: sklearn, pickle"⟩, st)

/-- Embeds `delete_model` (src/app/api/models.py lines 134-156).  The lookup
filters by name only — NOT by `is_active` — so an inactive row is found and
re-flagged.  After the soft delete the cache eviction runs inside a
swallowed `try`. -/
def delete_model (st : St A) (model_name : String) :
    Except (HTTPException × St A) (St A) :=
  match st.db.find? (fun r => r.name == model_name) with
  | none => .error (⟨404, "Model not found"⟩, st)
  | some m =>
    let db1 := st.db.map (fun r => if r.id = m.id then { r with is_active := false } else r)
    let models1 := ModelLoader.unload_model st.models model_name
    .ok { st with db := db1, models := models1 }

/-- Python's `str.endswith`, written out so it evaluates by kernel
reduction: the string ends with the given text when its last characters
spell it. -/
def endsWithStr (s suffx : String) : Bool :=
  s.data.reverse.take suffx.data.length == suffx.data.reverse

/-- The JSON rendering of a flat integer list, as `json.dumps` produces it
for a Python list of ints: elements separated by a comma and a space. -/
def jsonOfRow (row : List Int) : String :=
  "[" ++ String.intercalate ", " (row.map toString) ++ "]"

/-- The JSON rendering of a matrix of ints, as `json.dumps` produces it. -/
def jsonOfMatrix (m : List (List Int)) : String :=
  "[" ++ String.intercalate ", " (m.map jsonOfRow) ++ "]"

/-- The database query both predict endpoints share: first row whose name
matches, which is active, and — when a version is given — whose version
matches too. -/
def findActiveModel (db : List MLModel) (model_name : String)
    (version : Option String) : Option MLModel :=
  db.find? (fun r =>
    r.name == model_name && r.is_active &&
      (match version with | none => true | some v => r.version == v))

/-- Embeds the `POST /predict` handler (src/app/api/predict.py lines 35-88).
Resolves the active row (404 if none), runs the loader's predict (any loader
exception becomes 500 with prefix `Prediction error: `), then appends a
`Prediction` row holding the JSON-serialized input and output and the
measured latency, and returns name, predictions, latency.  The `np.array`
coercion cannot fail for the rectangular numeric input the request type
admits, so it is not modelled. -/
def predict_endpoint (infer : A → List (List Int) → Except String (List Int))
    (st : St A) (model_name : String) (version : Option String)
    (userId : Nat) (data : List (List Int)) (lat : Nat) :
    Except (HTTPException × St A) ((String × List Int × Nat) × St A) :=
  match findActiveModel st.db model_name version with
  | none => .error (⟨404, "Model not found"⟩, st)
  | some db_model =>
    match ModelLoader.predict infer st.models model_name data with
    | .error e => .error (⟨500, "Prediction error: " ++ e.msg⟩, st)
    | .ok preds =>
      let logRow : Prediction :=
        ⟨db_model.id, userId, jsonOfMatrix data, jsonOfRow preds, lat⟩
      .ok ((model_name, preds, lat), { st with preds := st.preds ++ [logRow] })

/-- Embeds the `POST /batch_predict` handler (src/app/api/predict.py lines
91-150).  After resolving the active row it requires a `.csv` filename, runs
predict on the parsed table `df` (CSV parsing is the external pandas
collaborator; the handler receives the parsed rows), and appends a
`Prediction` row whose `input_data` is the literal string
`Batch file: {filename} ({rows} rows)` — not the JSON of the input — while
`output_data` is the JSON of the predictions.  Returns name, count,
predictions, latency. -/
def batch_predict (infer : A → List (List Int) → Except String (List Int))
    (st : St A) (model_name : String) (version : Option String)
    (userId : Nat) (filename : String) (df : List (List Int)) (lat : Nat) :
    Except (HTTPException × St A) ((String × Nat × List Int × Nat) × St A) :=
  match findActiveModel st.db model_name version with
  | none => .error (⟨404, "Model not found"⟩, st)
  | some db_model =>
    if endsWithStr filename ".csv" then
      match ModelLoader.predict infer st.models model_name df with
      | .error e => .error (⟨500, "Prediction error: " ++ e.msg⟩, st)
      | .ok preds =>
        let logRow : Prediction :=
          ⟨db_model.id, userId,
            "Batch file: " ++ filename ++ " (" ++ toString df.length ++ " rows)",
            jsonOfRow preds, lat⟩
        .ok ((model_name, preds.length, preds, lat), { st with preds := st.preds ++ [logRow] })
    else
      .error (⟨400, "Only CSV files are supported"⟩, st)

/-- The record the `GET /metrics` handler intends to return. -/
structure Metrics where
  total_predictions : Nat
  total_active_models : Nat
  average_latency_seconds : Nat
  predictions_by_model : List (String × Nat)
deriving DecidableEq

/-- Embeds the `GET /metrics` handler (src/app/api/predict.py lines 153-181)
as written: it computes the two counts, then evaluates `db.func.avg(...)`
where `db` is a SQLAlchemy `Session`, which has no attribute `func`, so
every call raises `AttributeError` before any response is produced. -/
def get_metrics (st : St A) : Except String Metrics :=
  let _total_predictions := st.preds.length
  let _total_models := (st.db.filter (fun r => r.is_active)).length
  Except.error "AttributeError: Session object has no attribute func"

/-! Association-list lemmas used by the claim proofs. -/

theorem lookupKey_insertKey_self {β : Type} (k : String) (v : β)
    (l : List (String × β)) : lookupKey k (insertKey k v l) = some v := by
  induction l with
  | nil => simp [insertKey, lookupKey]
  | cons p rest ih =>
    by_cases h : p.1 = k
    · simp [insertKey, lookupKey, h]
    · simp [insertKey, lookupKey, h, ih]

theorem lookupKey_insertKey_ne {β : Type} {k' k : String} (v : β)
    (l : List (String × β)) (h : k' ≠ k) :
    lookupKey k' (insertKey k v l) = lookupKey k' l := by
  have hk : ¬ k = k' := fun e => h (Eq.symm e)
  induction l with
  | nil => simp [insertKey, lookupKey, hk]
  | cons p rest ih =>
    by_cases hp : p.1 = k
    · simp [insertKey, lookupKey, hp, hk]
    · simp only [insertKey, if_neg hp, lookupKey]
      by_cases hq : p.1 = k'
      · simp [hq]
      · simp [hq, ih]

theorem lookupKey_eraseKey_self {β : Type} (k : String)
    (l : List (String × β)) : lookupKey k (eraseKey k l) = none := by
  induction l with
  | nil => simp [eraseKey, lookupKey]
  | cons p rest ih =>
    by_cases h : p.1 = k
    · simpa [eraseKey, h] using ih
    · simp [eraseKey, lookupKey, h, ih]

theorem lookupKey_eraseKey_ne {β : Type} {k' k : String}
    (l : List (String × β)) (h : k' ≠ k) :
    lookupKey k' (eraseKey k l) = lookupKey k' l := by
  have hk : ¬ k = k' := fun e => h (Eq.symm e)
  induction l with
  | nil => simp [eraseKey]
  | cons p rest ih =>
    by_cases hp : p.1 = k
    · simp [eraseKey, lookupKey, hp, hk, ih]
    · by_cases hq : p.1 = k'
      · simp [eraseKey, lookupKey, hp, hq, h]
      · simp [eraseKey, lookupKey, hp, hq, ih]

theorem countKey_insertKey_self {β : Type} (k : String) (v : β)
    (l : List (String × β)) :
    countKey k (insertKey k v l) = if countKey k l = 0 then 1 else countKey k l := by
  induction l with
  | nil => simp [insertKey, countKey]
  | cons p rest ih =>
    by_cases h : p.1 = k
    · simp [insertKey, countKey, h, List.filter]
    · simp only [insertKey, if_neg h, countKey, List.filter, h, decide_eq_true_eq] at ih ⊢
      simp [h, ih, countKey]

theorem lookupKey_eq_none_iff_countKey_eq_zero {β : Type} (k : String)
    (l : List (String × β)) : lookupKey k l = none ↔ countKey k l = 0 := by
  induction l with
  | nil => simp [lookupKey, countKey]
  | cons p rest ih =>
    by_cases h : p.1 = k
    · simp [lookupKey, countKey, h, List.filter]
    · simp only [lookupKey, if_neg h, countKey, List.filter] at ih ⊢
      simp [h, ih]

theorem find?_append_of_forall_none {α : Type} (p : α → Bool) (l₁ l₂ : List α)
    (h : ∀ x ∈ l₁, p x = false) : (l₁ ++ l₂).find? p = l₂.find? p := by
  induction l₁ with
  | nil => simp
  | cons a rest ih =>
    have ha := h a (List.mem_cons_self a rest)
    simp only [List.cons_append, List.find?, ha]
    exact ih (fun x hx => h x (List.mem_cons_of_mem a hx))

/-! The claim theorems. -/

/-- C8: the loader's `predict` fails with the not-loaded `ValueError` exactly
when the name is absent from the cache; when the name is cached it fails with
the wrapped inference `Exception` exactly when the artifact's own predict
raises, and succeeds with its output otherwise — so a cache miss is never
reported as an inference error. -/
theorem predict_notloaded_vs_inference_error {A : Type}
    (infer : A → List (List Int) → Except String (List Int))
    (models : List (String × A)) (name : String) (input : List (List Int)) :
    (lookupKey name models = none →
      ModelLoader.predict infer models name input =
        .error (.valueError ("Model " ++ name ++ " not loaded. Please load it first."))) ∧
    (∀ m, lookupKey name models = some m →
      (∀ e, infer m input = .error e →
        ModelLoader.predict infer models name input =
          .error (.exception ("Prediction error: " ++ e))) ∧
      (∀ out, infer m input = .ok out →
        ModelLoader.predict infer models name input = .ok out)) := by
  refine ⟨fun h => ?_, fun m hm => ⟨fun e he => ?_, fun out ho => ?_⟩⟩
  · simp [ModelLoader.predict, ModelLoader.get_model, h]
  · simp [ModelLoader.predict, ModelLoader.get_model, hm, he]
  · simp [ModelLoader.predict, ModelLoader.get_model, hm, ho]

/-- C8 witness: concrete runs exercising every branch of the theorem. -/
theorem predict_notloaded_vs_inference_error_witness :
    ModelLoader.predict (fun (a : Nat) _ => Except.ok [Int.ofNat a]) [] "m" [[1]] =
      .error (.valueError ("Model " ++ "m" ++ " not loaded. Please load it first.")) ∧
    ModelLoader.predict (fun (_ : Nat) _ => Except.error "shape mismatch")
        [("m", 5)] "m" [[1]] =
      .error (.exception ("Prediction error: " ++ "shape mismatch")) ∧
    ModelLoader.predict (fun (a : Nat) _ => Except.ok [Int.ofNat a])
        [("m", 5)] "m" [[1]] = .ok [5] :=
  ⟨(predict_notloaded_vs_inference_error _ [] "m" [[1]]).1 rfl,
   ((predict_notloaded_vs_inference_error _ [("m", 5)] "m" [[1]]).2 5 rfl).1
     "shape mismatch" rfl,
   ((predict_notloaded_vs_inference_error _ [("m", 5)] "m" [[1]]).2 5 rfl).2
     [5] rfl⟩

/-- C4 counterexample: in `load_model` the unsupported-framework `ValueError`
is raised inside the `try` block, so `except Exception` catches it and
re-raises the same bare `Exception` kind that deserialization failures
produce — there is no distinct `UnsupportedFramework` failure at this
operation, contradicting the claim that the three kinds are distinguishable.
Both concrete runs below, one with an unrecognized framework and one with a
failing deserializer, yield an error of the same `exception` kind with the
same `Error loading model: ` wrapping. -/
theorem load_unsupported_wrapped_cex :
    ModelLoader.load_model (fun _ => Except.ok (0 : Nat)) (fun _ => Except.ok 0)
        [("p.bin", "bytes")] [] "m" "p.bin" "tensorflow" =
      .error (.exception "Error loading model: Unsupported framework: tensorflow") ∧
    ModelLoader.load_model (fun _ => Except.error "bad bytes") (fun _ => Except.ok (0 : Nat))
        [("p.bin", "bytes")] [] "m" "p.bin" "sklearn" =
      .error (.exception "Error loading model: bad bytes") := by
  exact ⟨rfl, rfl⟩

/-- C4 amended: `load_model` fails with a distinct `FileNotFoundError` when
the path is missing; when the path exists, an unrecognized framework and a
deserialization failure both surface as the same bare `Exception` kind
prefixed with `Error loading model: ` (the unsupported-framework case is
distinguishable only by its message text, not by its kind), so the caller
can distinguish the missing-file failure from the other two but not the
unsupported-framework failure from a deserialization failure. -/
theorem load_model_error_classification {A : Type}
    (jo pi : String → Except String A) (fs : List (String × String))
    (models : List (String × A)) (name path fw : String) :
    (lookupKey path fs = none →
      ModelLoader.load_model jo pi fs models name path fw =
        .error (.fileNotFoundError ("Model file not found: " ++ path))) ∧
    (∀ bytes, lookupKey path fs = some bytes →
      (fw ∉ supported_frameworks →
        ModelLoader.load_model jo pi fs models name path fw =
          .error (.exception ("Error loading model: " ++ ("Unsupported framework: " ++ fw)))) ∧
      (∀ e, fw = "sklearn" → jo bytes = .error e →
        ModelLoader.load_model jo pi fs models name path fw =
          .error (.exception ("Error loading model: " ++ e))) ∧
      (∀ e, fw = "pickle" → pi bytes = .error e →
        ModelLoader.load_model jo pi fs models name path fw =
          .error (.exception ("Error loading model: " ++ e)))) := by
  refine ⟨fun h => ?_, fun bytes hb => ⟨fun hfw => ?_, fun e hsk he => ?_, fun e hpk he => ?_⟩⟩
  · simp [ModelLoader.load_model, h]
  · have h1 : ¬ fw = "sklearn" := by
      intro e
      exact hfw (by simp [supported_frameworks, e])
    have h2 : ¬ fw = "pickle" := by
      intro e
      exact hfw (by simp [supported_frameworks, e])
    simp [ModelLoader.load_model, hb, h1, h2]
  · subst hsk
    simp [ModelLoader.load_model, hb, he]
  · subst hpk
    simp [ModelLoader.load_model, hb, he]

/-- C4 amended witness: the three branches at concrete inputs. -/
theorem load_model_error_classification_witness :
    ModelLoader.load_model (fun _ => Except.ok (0 : Nat)) (fun _ => Except.ok 0)
        [] [] "m" "p.bin" "sklearn" =
      .error (.fileNotFoundError ("Model file not found: " ++ "p.bin")) ∧
    ModelLoader.load_model (fun _ => Except.ok (0 : Nat)) (fun _ => Except.ok 0)
        [("p.bin", "b")] [] "m" "p.bin" "onnx" =
      .error (.exception ("Error loading model: " ++ ("Unsupported framework: " ++ "onnx"))) ∧
    ModelLoader.load_model (fun _ => Except.error "corrupt") (fun _ => Except.ok (0 : Nat))
        [("p.bin", "b")] [] "m" "p.bin" "sklearn" =
      .error (.exception ("Error loading model: " ++ "corrupt")) :=
  ⟨(load_model_error_classification _ _ [] [] "m" "p.bin" "sklearn").1 rfl,
   (((load_model_error_classification _ _ [("p.bin", "b")] [] "m" "p.bin" "onnx").2
      "b" rfl).1 (by decide)),
   ((((load_model_error_classification (fun _ => Except.error "corrupt")
      (fun _ => Except.ok (0 : Nat)) [("p.bin", "b")] [] "m" "p.bin" "sklearn").2
      "b" rfl).2).1 "corrupt" rfl rfl)⟩

/-- C10: a successful `load_model` stores the new artifact under the name —
replacing the previously cached entry when one exists (last write wins) —
leaves the binding of every other name unchanged, and, given the dict
invariant that the name holds at most one binding, leaves exactly one
binding for the name afterwards.  In particular loading the same name twice
leaves one entry holding the second artifact. -/
theorem load_replaces_cache_entry {A : Type}
    (jo pi : String → Except String A) (fs : List (String × String))
    (models models' : List (String × A)) (name path fw : String) (m : A)
    (h : ModelLoader.load_model jo pi fs models name path fw = .ok (m, models')) :
    lookupKey name models' = some m ∧
    (∀ k, k ≠ name → lookupKey k models' = lookupKey k models) ∧
    (countKey name models ≤ 1 → countKey name models' = 1) := by
  simp only [ModelLoader.load_model] at h
  split at h
  · exact absurd h (by simp)
  · split at h
    · rename_i val heq
      rw [Except.ok.injEq, Prod.mk.injEq] at h
      obtain ⟨rfl, rfl⟩ := h
      refine ⟨lookupKey_insertKey_self name val models,
        fun k hk => lookupKey_insertKey_ne val models hk, fun hle => ?_⟩
      rw [countKey_insertKey_self]
      by_cases h0 : countKey name models = 0
      · simp [h0]
      · have h1 : countKey name models = 1 := Nat.le_antisymm hle (Nat.one_le_iff_ne_zero.mpr h0)
        simp [h1]
    · exact absurd h (by simp)

/-- C10 witness: loading `m` twice over an initial singleton cache leaves a
single entry holding the second artifact. -/
theorem load_replaces_cache_entry_witness :
    lookupKey "m" [("m", 7)] = some 7 ∧
    (∀ k, k ≠ "m" → lookupKey k [("m", 7)] = lookupKey k [("m", (3 : Nat))]) ∧
    (countKey "m" [("m", (3 : Nat))] ≤ 1 → countKey "m" [("m", 7)] = 1) :=
  load_replaces_cache_entry (fun _ => Except.ok 7) (fun _ => Except.ok 0)
    [("p.bin", "b")] [("m", 3)] [("m", 7)] "m" "p.bin" "sklearn" 7 rfl

/-- A state whose only record named `m` is inactive (already soft-deleted),
with an empty cache and empty file storage. -/
def stInactive : St Unit :=
  { fs := [], db := [⟨0, "m", "1", "pickle", "p", none, false, 0⟩],
    preds := [], models := [], nextId := 1 }

/-- C3 counterexample: the delete handler's query filters by name only, not
by `is_active` (src/app/api/models.py line 141), so deleting a name whose
only record is inactive does NOT fail with 404 — it finds the inactive row,
re-flags it, and succeeds, refuting the claim that such a call fails with
`NotFound`. -/
theorem delete_inactive_succeeds_cex :
    delete_model stInactive "m" = .ok stInactive := by
  rfl

/-- C3 amended: `delete_model` fails with 404 `Model not found` (leaving the
state unchanged) exactly when no record with the name exists at all, active
or inactive; when any record with the name exists — even an already
soft-deleted one — the call succeeds. -/
theorem delete_notfound_iff_no_record {A : Type} (st : St A) (name : String) :
    delete_model st name = .error (⟨404, "Model not found"⟩, st) ↔
      ∀ r ∈ st.db, r.name ≠ name := by
  unfold delete_model
  cases hf : st.db.find? (fun r => r.name == name) with
  | none =>
    constructor
    · intro _ r hr hname
      have hall := List.find?_eq_none.mp hf r hr
      simp [hname] at hall
    · intro _
      rfl
  | some m =>
    constructor
    · intro h
      simp at h
    · intro hall
      have hm := List.find?_some hf
      have hmem := List.mem_of_find?_eq_some hf
      exact absurd (by simpa using hm) (hall m hmem)

/-- C3 amended witness: on an empty registry, delete reports 404. -/
theorem delete_notfound_iff_no_record_witness :
    delete_model ({ fs := [], db := [], preds := [], models := [], nextId := 0 } : St Unit)
        "x" =
      .error (⟨404, "Model not found"⟩,
        { fs := [], db := [], preds := [], models := [], nextId := 0 }) :=
  (delete_notfound_iff_no_record _ "x").mpr (by simp)

/-- C5: the claim describes the intended aggregation, and the repository's
own test (`test_get_metrics` in src/tests/test_api.py) asserts the endpoint
answers 200 with the aggregate fields; but the handler as written evaluates
`db.func.avg(Prediction.latency)` where `db` is a SQLAlchemy `Session`,
which has no attribute `func`, so every call — including the zero-log state
the claim singles out — raises `AttributeError` and returns no aggregates at
all.  The code contradicts its own test: a code bug, witnessed here on
every state. -/
theorem get_metrics_always_raises {A : Type} (st : St A) :
    get_metrics st = .error "AttributeError: Session object has no attribute func" := rfl

/-- A state holding one active record named `m` (and nothing else), used to
exhibit the precedence of the duplicate-name check. -/
def stDup : St Unit :=
  { fs := [], db := [⟨0, "m", "1", "pickle", "p", none, true, 0⟩],
    preds := [], models := [], nextId := 1 }

/-- C9 counterexample: the duplicate-name check runs before the framework
check (src/app/api/models.py lines 78-89), so an upload whose framework is
unsupported but whose name is already taken fails with the duplicate-name
error, not with the unsupported-framework error the claim promises. -/
theorem upload_unsupported_duplicate_precedence_cex :
    upload_model (fun _ => Except.ok ()) (fun _ => Except.ok ()) stDup
        "f.bin" "m" "2" "tensorflow" "c" none 1 500 =
      .error (⟨400, "Model with this name already exists"⟩, stDup) ∧
    (⟨400, "Model with this name already exists"⟩ : HTTPException) ≠
      ⟨400, "Unsupported framework. Supported: sklearn, pickle"⟩ := by
  exact ⟨rfl, by decide⟩

/-- C9 amended: an upload whose framework is unsupported always fails before
any file write, record insert, or cache change — the returned state is the
input state itself — with the unsupported-framework error when the name is
not already taken, and with the earlier duplicate-name error when it is. -/
theorem upload_unsupported_framework_no_effect {A : Type}
    (jo pi : String → Except String A) (st : St A)
    (fn name ver fw content : String) (desc : Option String) (uid maxMB : Nat)
    (hfw : fw ∉ supported_frameworks) :
    (upload_model jo pi st fn name ver fw content desc uid maxMB =
        .error (⟨400, "Model with this name already exists"⟩, st) ∨
      upload_model jo pi st fn name ver fw content desc uid maxMB =
        .error (⟨400, "Unsupported framework. Supported: sklearn, pickle"⟩, st)) ∧
    (st.db.find? (fun r => r.name == name) = none →
      upload_model jo pi st fn name ver fw content desc uid maxMB =
        .error (⟨400, "Unsupported framework. Supported: sklearn, pickle"⟩, st)) := by
  unfold upload_model
  cases hf : st.db.find? (fun r => r.name == name) with
  | some m =>
    exact ⟨Or.inl rfl, fun hnone => absurd hnone (by simp)⟩
  | none =>
    rw [if_neg hfw]
    exact ⟨Or.inr rfl, fun _ => rfl⟩

/-- C9 amended witness: fresh name, framework `tensorflow`, empty state. -/
theorem upload_unsupported_framework_no_effect_witness :
    (upload_model (fun _ => Except.ok ()) (fun _ => Except.ok ())
        ({ fs := [], db := [], preds := [], models := [], nextId := 0 } : St Unit)
        "f.bin" "m" "1" "tensorflow" "c" none 1 500 =
        .error (⟨400, "Model with this name already exists"⟩,
          { fs := [], db := [], preds := [], models := [], nextId := 0 }) ∨
      upload_model (fun _ => Except.ok ()) (fun _ => Except.ok ())
        ({ fs := [], db := [], preds := [], models := [], nextId := 0 } : St Unit)
        "f.bin" "m" "1" "tensorflow" "c" none 1 500 =
        .error (⟨400, "Unsupported framework. Supported: sklearn, pickle"⟩,
          { fs := [], db := [], preds := [], models := [], nextId := 0 })) ∧
    (({ fs := [], db := [], preds := [], models := [], nextId := 0 } :
        St Unit).db.find? (fun r => r.name == "m") = none →
      upload_model (fun _ => Except.ok ()) (fun _ => Except.ok ())
        ({ fs := [], db := [], preds := [], models := [], nextId := 0 } : St Unit)
        "f.bin" "m" "1" "tensorflow" "c" none 1 500 =
        .error (⟨400, "Unsupported framework. Supported: sklearn, pickle"⟩,
          { fs := [], db := [], preds := [], models := [], nextId := 0 })) :=
  upload_unsupported_framework_no_effect _ _ _ "f.bin" "m" "1" "tensorflow" "c"
    none 1 500 (by decide)

/-- Inversion of a successful upload: the duplicate check passed, the new
row is the one returned, and the resulting state extends the old one with
the saved file, the appended row, and the freshly deserialized artifact
cached under the name. -/
theorem upload_model_ok_inv {A : Type}
    (jo pi : String → Except String A) (st : St A)
    (fn name ver fw content : String) (desc : Option String) (uid maxMB : Nat)
    (r1 : MLModel) (st1 : St A)
    (h : upload_model jo pi st fn name ver fw content desc uid maxMB = .ok (r1, st1)) :
    st.db.find? (fun r => r.name == name) = none ∧
    r1 = ⟨st.nextId, name, ver, fw, name ++ "_v" ++ ver ++ "_" ++ fn, desc, true, uid⟩ ∧
    st1.db = st.db ++ [r1] ∧
    st1.fs = insertKey (name ++ "_v" ++ ver ++ "_" ++ fn) content st.fs ∧
    st1.preds = st.preds ∧
    ∃ m, (if fw = "sklearn" then jo content else if fw = "pickle" then pi content
        else Except.error ("Unsupported framework: " ++ fw)) = Except.ok m ∧
      st1.models = insertKey name m st.models := by
  unfold upload_model at h
  cases hf : st.db.find? (fun r => r.name == name) with
  | some m =>
    rw [hf] at h
    simp at h
  | none =>
    rw [hf] at h
    by_cases hfw : fw ∈ supported_frameworks
    · rw [if_pos hfw] at h
      by_cases hsz : content.length > maxMB * 1024 * 1024
      · rw [if_pos hsz] at h
        simp at h
      · rw [if_neg hsz] at h
        simp only [ModelLoader.save_uploaded_model, ModelLoader.load_model,
          lookupKey_insertKey_self] at h
        cases hat : (if fw = "sklearn" then jo content else if fw = "pickle" then pi content
            else Except.error ("Unsupported framework: " ++ fw)) with
        | error e =>
          rw [hat] at h
          simp at h
        | ok m =>
          rw [hat] at h
          simp only [Except.ok.injEq, Prod.mk.injEq] at h
          obtain ⟨rfl, rfl⟩ := h
          exact ⟨rfl, rfl, rfl, rfl, rfl, m, rfl, rfl⟩
    · rw [if_neg hfw] at h
      simp at h

/-- An upload whose name some existing row already holds — active or not —
answers the duplicate-name error and leaves the state untouched. -/
theorem upload_model_error_of_name_taken {A : Type}
    (jo pi : String → Except String A) (st : St A)
    (fn name ver fw content : String) (desc : Option String) (uid maxMB : Nat)
    (hr : ∃ r ∈ st.db, r.name = name) :
    upload_model jo pi st fn name ver fw content desc uid maxMB =
      .error (⟨400, "Model with this name already exists"⟩, st) := by
  unfold upload_model
  cases hf : st.db.find? (fun r => r.name == name) with
  | some m => rfl
  | none =>
    obtain ⟨r, hmem, hname⟩ := hr
    have hall := List.find?_eq_none.mp hf r hmem
    simp [hname] at hall

/-- Inversion of a successful delete: some row with the name was found, it
is re-written inactive in place, the cache binding is evicted, and nothing
else changes. -/
theorem delete_model_ok_inv {A : Type} (st : St A) (name : String) (st2 : St A)
    (h : delete_model st name = .ok st2) :
    ∃ m, st.db.find? (fun r => r.name == name) = some m ∧
      st2.db = st.db.map (fun r => if r.id = m.id then { r with is_active := false } else r) ∧
      st2.models = eraseKey name st.models ∧
      st2.fs = st.fs ∧ st2.preds = st.preds := by
  unfold delete_model at h
  cases hf : st.db.find? (fun r => r.name == name) with
  | none =>
    rw [hf] at h
    simp at h
  | some m =>
    rw [hf] at h
    simp only [Except.ok.injEq] at h
    subst h
    exact ⟨m, rfl, rfl, rfl, rfl, rfl⟩

/-- C7: once an upload of a name has succeeded, any later upload of the same
name fails with the duplicate-name error — whatever its version, framework,
content, or uploader — and this persists after the record is soft-deleted,
because the duplicate check queries by name alone, ignoring `is_active`,
and delete only flips the flag in place. -/
theorem duplicate_name_rejected_even_after_delete {A : Type}
    (jo pi : String → Except String A) (st : St A)
    (fn name ver fw content : String) (desc : Option String) (uid maxMB : Nat)
    (r1 : MLModel) (st1 : St A)
    (h1 : upload_model jo pi st fn name ver fw content desc uid maxMB = .ok (r1, st1)) :
    (∀ (jo2 pi2 : String → Except String A) fn2 ver2 fw2 content2 desc2 uid2 maxMB2,
      upload_model jo2 pi2 st1 fn2 name ver2 fw2 content2 desc2 uid2 maxMB2 =
        .error (⟨400, "Model with this name already exists"⟩, st1)) ∧
    (∀ st2, delete_model st1 name = .ok st2 →
      ∀ (jo2 pi2 : String → Except String A) fn2 ver2 fw2 content2 desc2 uid2 maxMB2,
        upload_model jo2 pi2 st2 fn2 name ver2 fw2 content2 desc2 uid2 maxMB2 =
          .error (⟨400, "Model with this name already exists"⟩, st2)) := by
  obtain ⟨hf, hr1, hdb, hfs, hpr, m, hm, hmodels⟩ :=
    upload_model_ok_inv jo pi st fn name ver fw content desc uid maxMB r1 st1 h1
  have hname1 : r1.name = name := by rw [hr1]
  have hmem1 : ∃ r ∈ st1.db, r.name = name := by
    refine ⟨r1, ?_, hname1⟩
    rw [hdb]
    exact List.mem_append_right _ (List.mem_singleton.mpr rfl)
  refine ⟨fun jo2 pi2 fn2 ver2 fw2 content2 desc2 uid2 maxMB2 =>
      upload_model_error_of_name_taken jo2 pi2 st1 fn2 name ver2 fw2 content2 desc2
        uid2 maxMB2 hmem1,
    fun st2 hdel jo2 pi2 fn2 ver2 fw2 content2 desc2 uid2 maxMB2 => ?_⟩
  obtain ⟨mm, hfind, hdb2, _, _, _⟩ := delete_model_ok_inv st1 name st2 hdel
  have hmem2 : ∃ r ∈ st2.db, r.name = name := by
    obtain ⟨r, hr, hn⟩ := hmem1
    refine ⟨if r.id = mm.id then { r with is_active := false } else r, ?_, ?_⟩
    · rw [hdb2]
      exact List.mem_map_of_mem _ hr
    · by_cases hid : r.id = mm.id
      · simp [hid, hn]
      · simp [hid, hn]
  exact upload_model_error_of_name_taken jo2 pi2 st2 fn2 name ver2 fw2 content2 desc2
    uid2 maxMB2 hmem2

/-- The state a first successful upload of `m` produces from the empty
state, used as concrete input by witnesses. -/
def st1C : St Nat :=
  { fs := [("m_v1_f.bin", "c")],
    db := [⟨0, "m", "1", "pickle", "m_v1_f.bin", none, true, 7⟩],
    preds := [], models := [("m", 5)], nextId := 1 }

/-- The state deleting `m` from `st1C` produces. -/
def st2C : St Nat :=
  { fs := [("m_v1_f.bin", "c")],
    db := [⟨0, "m", "1", "pickle", "m_v1_f.bin", none, false, 7⟩],
    preds := [], models := [], nextId := 1 }

/-- C7 witness: after a concrete successful upload of `m`, a second upload
with a different version fails with the duplicate-name error, both directly
and after soft-deleting the record. -/
theorem duplicate_name_rejected_even_after_delete_witness :
    upload_model (fun _ => Except.ok (5 : Nat)) (fun _ => Except.ok 5) st1C
        "g.bin" "m" "2" "sklearn" "d" none 9 1 =
      .error (⟨400, "Model with this name already exists"⟩, st1C) ∧
    upload_model (fun _ => Except.ok (5 : Nat)) (fun _ => Except.ok 5) st2C
        "g.bin" "m" "2" "sklearn" "d" none 9 1 =
      .error (⟨400, "Model with this name already exists"⟩, st2C) :=
  ⟨(duplicate_name_rejected_even_after_delete (fun _ => Except.ok (5 : Nat))
      (fun _ => Except.ok 5)
      ({ fs := [], db := [], preds := [], models := [], nextId := 0 } : St Nat)
      "f.bin" "m" "1" "pickle" "c" none 7 1
      ⟨0, "m", "1", "pickle", "m_v1_f.bin", none, true, 7⟩ st1C rfl).1
      _ _ "g.bin" "2" "sklearn" "d" none 9 1,
   (duplicate_name_rejected_even_after_delete (fun _ => Except.ok (5 : Nat))
      (fun _ => Except.ok 5)
      ({ fs := [], db := [], preds := [], models := [], nextId := 0 } : St Nat)
      "f.bin" "m" "1" "pickle" "c" none 7 1
      ⟨0, "m", "1", "pickle", "m_v1_f.bin", none, true, 7⟩ st1C rfl).2
      st2C rfl _ _ "g.bin" "2" "sklearn" "d" none 9 1⟩

/-- C2: after a successful upload, querying by name finds the new row and it
is active, the artifact produced by the framework deserializer for the
uploaded bytes sits in the cache under the name, and a predict request for
that name — with no explicit load in between — resolves the row, finds the
cached artifact, and succeeds whenever the artifact's inference does,
appending the prediction log row. -/
theorem upload_success_record_cached_predict {A : Type}
    (jo pi : String → Except String A)
    (infer : A → List (List Int) → Except String (List Int))
    (st : St A) (fn name ver fw content : String) (desc : Option String)
    (uid maxMB : Nat) (r1 : MLModel) (st1 : St A)
    (h : upload_model jo pi st fn name ver fw content desc uid maxMB = .ok (r1, st1)) :
    findActiveModel st1.db name none = some r1 ∧ r1.is_active = true ∧
    ∃ m, lookupKey name st1.models = some m ∧
      (if fw = "sklearn" then jo content else if fw = "pickle" then pi content
        else Except.error ("Unsupported framework: " ++ fw)) = Except.ok m ∧
      ∀ data preds lat uid2, infer m data = .ok preds →
        predict_endpoint infer st1 name none uid2 data lat =
          .ok ((name, preds, lat),
            { st1 with preds :=
                st1.preds ++ [⟨r1.id, uid2, jsonOfMatrix data, jsonOfRow preds, lat⟩] }) := by
  obtain ⟨hf, hr1, hdb, hfs, hpr, m, hm, hmodels⟩ :=
    upload_model_ok_inv jo pi st fn name ver fw content desc uid maxMB r1 st1 h
  have hact : findActiveModel st1.db name none = some r1 := by
    unfold findActiveModel
    rw [hdb, find?_append_of_forall_none _ st.db _ ?_]
    · have hn : (r1.name == name) = true := by
        rw [hr1]
        simp
      have ha : r1.is_active = true := by rw [hr1]
      simp [List.find?, hn, ha]
    · intro r hmem
      have hne := List.find?_eq_none.mp hf r hmem
      simp only [Bool.not_eq_true] at hne
      simp [hne]
  have hcache : lookupKey name st1.models = some m := by
    rw [hmodels]
    exact lookupKey_insertKey_self _ _ _
  refine ⟨hact, by rw [hr1], m, hcache, hm, ?_⟩
  intro data preds lat uid2 hinf
  have hpred : ModelLoader.predict infer st1.models name data = .ok preds := by
    simp [ModelLoader.predict, ModelLoader.get_model, hcache, hinf]
  unfold predict_endpoint
  rw [hact, hpred]

/-- C2 witness: a concrete upload of `m` from the empty state, followed by a
concrete predict call that succeeds with the cached artifact's output. -/
theorem upload_success_record_cached_predict_witness :
    findActiveModel st1C.db "m" none =
      some ⟨0, "m", "1", "pickle", "m_v1_f.bin", none, true, 7⟩ ∧
    (⟨0, "m", "1", "pickle", "m_v1_f.bin", none, true, 7⟩ : MLModel).is_active = true ∧
    ∃ m, lookupKey "m" st1C.models = some m ∧
      (if "pickle" = "sklearn" then Except.ok 5 else if "pickle" = "pickle"
        then Except.ok 5 else Except.error ("Unsupported framework: " ++ "pickle")) =
        Except.ok m ∧
      ∀ data preds lat uid2,
        (fun (a : Nat) (_ : List (List Int)) =>
            (Except.ok [Int.ofNat a] : Except String (List Int))) m data = .ok preds →
        predict_endpoint (fun (a : Nat) (_ : List (List Int)) =>
            (Except.ok [Int.ofNat a] : Except String (List Int)))
            st1C "m" none uid2 data lat =
          .ok (("m", preds, lat),
            { st1C with preds :=
                st1C.preds ++ [⟨0, uid2, jsonOfMatrix data, jsonOfRow preds, lat⟩] }) := by
  exact upload_success_record_cached_predict (fun _ => Except.ok (5 : Nat))
    (fun _ => Except.ok 5)
    (fun (a : Nat) (_ : List (List Int)) =>
      (Except.ok [Int.ofNat a] : Except String (List Int)))
    ({ fs := [], db := [], preds := [], models := [], nextId := 0 } : St Nat)
    "f.bin" "m" "1" "pickle" "c" none 7 1
    ⟨0, "m", "1", "pickle", "m_v1_f.bin", none, true, 7⟩ st1C rfl

/-- C1: when the duplicate, framework, and size checks pass, the file is
saved and the row inserted, but deserialization fails, the handler deletes
the just-inserted row and the saved file and answers 500 with the wrapped
loader message (the handler prefixes `Error loading model: ` onto `str(e)`,
which the loader already prefixed the same way).  Afterwards — given that
row ids are below the autoincrement counter — the registry equals the
original one, so no record with the name exists (the duplicate check had
ensured none did before), the saved artifact file is gone from storage, and
the cache and prediction log are untouched. -/
theorem upload_rollback_on_load_failure {A : Type}
    (jo pi : String → Except String A) (st : St A)
    (fn name ver fw content : String) (desc : Option String) (uid maxMB : Nat)
    (msg : String)
    (hwf : ∀ r ∈ st.db, r.id < st.nextId)
    (hdup : st.db.find? (fun r => r.name == name) = none)
    (hfw : fw ∈ supported_frameworks)
    (hsize : ¬ content.length > maxMB * 1024 * 1024)
    (hde : (if fw = "sklearn" then jo content else if fw = "pickle" then pi content
        else Except.error ("Unsupported framework: " ++ fw)) = Except.error msg) :
    ∃ st1, upload_model jo pi st fn name ver fw content desc uid maxMB =
        .error (⟨500, "Error loading model: " ++ ("Error loading model: " ++ msg)⟩, st1) ∧
      st1.db = st.db ∧
      lookupKey (name ++ "_v" ++ ver ++ "_" ++ fn) st1.fs = none ∧
      (∀ r ∈ st1.db, r.name ≠ name) ∧
      st1.models = st.models ∧ st1.preds = st.preds := by
  have hdbeq : (st.db ++
      [(⟨st.nextId, name, ver, fw, name ++ "_v" ++ ver ++ "_" ++ fn, desc, true, uid⟩ :
        MLModel)]).filter (fun r => r.id ≠ st.nextId) = st.db := by
    rw [List.filter_append]
    have h1 : st.db.filter (fun r => decide (r.id ≠ st.nextId)) = st.db :=
      List.filter_eq_self.mpr (fun r hr => by simp [Nat.ne_of_lt (hwf r hr)])
    have h2 : ([(⟨st.nextId, name, ver, fw, name ++ "_v" ++ ver ++ "_" ++ fn, desc,
        true, uid⟩ : MLModel)]).filter (fun r => decide (r.id ≠ st.nextId)) = [] := by
      simp
    rw [h1, h2, List.append_nil]
  have hstep : upload_model jo pi st fn name ver fw content desc uid maxMB =
      .error (⟨500, "Error loading model: " ++ ("Error loading model: " ++ msg)⟩,
        { fs := eraseKey (name ++ "_v" ++ ver ++ "_" ++ fn)
            (insertKey (name ++ "_v" ++ ver ++ "_" ++ fn) content st.fs),
          db := (st.db ++
            [(⟨st.nextId, name, ver, fw, name ++ "_v" ++ ver ++ "_" ++ fn, desc, true,
              uid⟩ : MLModel)]).filter (fun r => r.id ≠ st.nextId),
          preds := st.preds, models := st.models, nextId := st.nextId + 1 }) := by
    unfold upload_model
    rw [hdup, if_pos hfw, if_neg hsize]
    simp only [ModelLoader.save_uploaded_model, ModelLoader.load_model,
      ModelLoader.delete_model_file, lookupKey_insertKey_self]
    rw [hde]
    rfl
  refine ⟨_, hstep, hdbeq, lookupKey_eraseKey_self _ _, ?_, rfl, rfl⟩
  intro r hr
  rw [hdbeq] at hr
  have hne := List.find?_eq_none.mp hdup r hr
  simpa using hne

/-- The empty state, used as concrete input by witnesses. -/
def st0C : St Nat := { fs := [], db := [], preds := [], models := [], nextId := 0 }

/-- C1 witness: a concrete upload of a fresh name whose pickle
deserialization fails rolls back to the original state. -/
theorem upload_rollback_on_load_failure_witness :
    ∃ st1, upload_model (fun _ => Except.ok (5 : Nat)) (fun _ => Except.error "corrupt")
        st0C "f.bin" "m" "1" "pickle" "c" none 7 1 =
        .error (⟨500, "Error loading model: " ++ ("Error loading model: " ++ "corrupt")⟩,
          st1) ∧
      st1.db = st0C.db ∧
      lookupKey ("m" ++ "_v" ++ "1" ++ "_" ++ "f.bin") st1.fs = none ∧
      (∀ r ∈ st1.db, r.name ≠ "m") ∧
      st1.models = st0C.models ∧ st1.preds = st0C.preds := by
  exact upload_rollback_on_load_failure (fun _ => Except.ok (5 : Nat))
    (fun _ => Except.error "corrupt") st0C
    "f.bin" "m" "1" "pickle" "c" none 7 1 "corrupt"
    (by simp [st0C]) rfl (by decide) (by decide) rfl

/-- A state holding one active record named `m` with the artifact `5`
cached, used as concrete input by the batch-prediction theorems. -/
def stBatch : St Nat :=
  { fs := [], db := [⟨0, "m", "1", "pickle", "p", none, true, 0⟩],
    preds := [], models := [("m", 5)], nextId := 1 }

/-- C6 counterexample: on a concrete successful batch prediction the
persisted log row's `input_data` is the literal description
`Batch file: d.csv (1 rows)` (src/app/api/predict.py line 138), which is not
the JSON serialization of the input table — refuting the claim that the
batch path logs the JSON-serialized input under the same contract as the
single-prediction path (which logs `json.dumps(request.data)`). -/
theorem batch_log_input_not_json_cex :
    batch_predict (fun (a : Nat) (_ : List (List Int)) =>
        (Except.ok [Int.ofNat a] : Except String (List Int)))
        stBatch "m" none 1 "d.csv" [[1, 2]] 3 =
      .ok (("m", 1, [5], 3),
        { stBatch with preds := [⟨0, 1, "Batch file: d.csv (1 rows)", "[5]", 3⟩] }) ∧
    "Batch file: d.csv (1 rows)" ≠ jsonOfMatrix [[1, 2]] := by
  exact ⟨rfl, by decide⟩

/-- C6 amended: on every successful batch prediction the persisted log row
stores the JSON-serialized output and the measured latency — as on the
single-prediction path — but its `input_data` field holds the descriptive
string `Batch file: {filename} ({rows} rows)` naming the uploaded file and
its row count rather than the JSON-serialized input. -/
theorem batch_predict_log_contract {A : Type}
    (infer : A → List (List Int) → Except String (List Int)) (st : St A)
    (model_name : String) (version : Option String) (userId : Nat)
    (filename : String) (df : List (List Int)) (lat : Nat)
    (res : String × Nat × List Int × Nat) (st1 : St A)
    (h : batch_predict infer st model_name version userId filename df lat = .ok (res, st1)) :
    ∃ db_model preds,
      findActiveModel st.db model_name version = some db_model ∧
      ModelLoader.predict infer st.models model_name df = .ok preds ∧
      st1.preds = st.preds ++ [⟨db_model.id, userId,
        "Batch file: " ++ filename ++ " (" ++ toString df.length ++ " rows)",
        jsonOfRow preds, lat⟩] ∧
      res = (model_name, preds.length, preds, lat) ∧
      st1.db = st.db ∧ st1.models = st.models ∧ st1.fs = st.fs := by
  unfold batch_predict at h
  split at h
  · exact absurd h (by simp)
  · rename_i dbm hf
    split at h
    · split at h
      · exact absurd h (by simp)
      · rename_i preds hp
        simp only [Except.ok.injEq, Prod.mk.injEq] at h
        obtain ⟨rfl, rfl⟩ := h
        exact ⟨dbm, preds, hf, hp, rfl, rfl, rfl, rfl, rfl⟩
    · exact absurd h (by simp)

/-- C6 amended witness: the concrete batch run, with every field of the
logged row spelled out. -/
theorem batch_predict_log_contract_witness :
    ∃ db_model preds,
      findActiveModel stBatch.db "m" none = some db_model ∧
      ModelLoader.predict (fun (a : Nat) (_ : List (List Int)) =>
          (Except.ok [Int.ofNat a] : Except String (List Int)))
          stBatch.models "m" [[1, 2]] = .ok preds ∧
      ({ stBatch with
          preds := [⟨0, 1, "Batch file: d.csv (1 rows)", "[5]", 3⟩] } : St Nat).preds =
        stBatch.preds ++ [⟨db_model.id, 1,
          "Batch file: " ++ "d.csv" ++ " (" ++ toString ([[(1 : Int), 2]]).length ++ " rows)",
          jsonOfRow preds, 3⟩] ∧
      (("m", 1, [5], 3) : String × Nat × List Int × Nat) =
        ("m", preds.length, preds, 3) ∧
      ({ stBatch with
          preds := [⟨0, 1, "Batch file: d.csv (1 rows)", "[5]", 3⟩] } : St Nat).db =
        stBatch.db ∧
      ({ stBatch with
          preds := [⟨0, 1, "Batch file: d.csv (1 rows)", "[5]", 3⟩] } : St Nat).models =
        stBatch.models ∧
      ({ stBatch with
          preds := [⟨0, 1, "Batch file: d.csv (1 rows)", "[5]", 3⟩] } : St Nat).fs =
        stBatch.fs := by
  exact batch_predict_log_contract (fun (a : Nat) (_ : List (List Int)) =>
      (Except.ok [Int.ofNat a] : Except String (List Int)))
    stBatch "m" none 1 "d.csv" [[1, 2]] 3 ("m", 1, [5], 3)
    ({ stBatch with preds := [⟨0, 1, "Batch file: d.csv (1 rows)", "[5]", 3⟩] } : St Nat)
    rfl

end MLServe
